import Mathlib

/-!
# DirectXSceneStore.ScenePanel: the overlay display operations

A shallow embedding of `ScenePanel.xaml.cpp`.  Every `IGameUIControl` method of the panel
hands a lambda to `Dispatcher->RunAsync`; the lambda later runs on the UI thread and assigns
XAML element properties.  Here

* the XAML elements the lambdas touch are the fields of `ScenePanel`;
* each lambda is a function `ScenePanel → Outcome` (`SetGameLoading_handler`, ...), written
  statement by statement in the order of the source;
* `swprintf_s` is the checked formatter of the C runtime: it either writes the text and its
  terminator into the buffer and returns the number of characters, or, when they do not fit,
  raises the invalid-parameter fault, which ends the handler where it stands (`Outcome.aborted`);
* `int` is a 32-bit two's-complement value (`CInt`), `float` an IEEE-754 binary32 bit
  pattern (`CFloat`);
* the two handlers that run under the game driver's critical section,
  `OnCompositionScaleChanged` and `OnSwapChainPanelSizeChanged`, are lists of steps
  (`Instr`), run by any number of threads under any schedule (`runSchedule`).
-/

namespace DirectXSceneStore

/-! ## Values -/

/-- The XAML `Visibility` enumeration. -/
inductive Visibility
  | Visible
  | Collapsed
  deriving DecidableEq, Repr

/-- Modelled from the spec: the enumeration `GameInfoOverlayCommand` is declared in a header
that is not among the sources; its four values are the ones `SetAction` switches on. -/
inductive GameInfoOverlayCommand
  | PlayAgain
  | PleaseWait
  | TapToContinue
  | None
  deriving DecidableEq, Repr

/-- A C `int`: a 32-bit two's-complement integer. -/
structure CInt where
  val : Int
  lo : -2147483648 ≤ val
  hi : val ≤ 2147483647

/-- A C `float`: an IEEE-754 binary32 bit pattern (sign bit, 8-bit biased exponent, 23-bit
fraction). -/
structure CFloat where
  sign : Bool
  expo : Nat
  frac : Nat
  expo_lt : expo < 256
  frac_lt : frac < 8388608

namespace CFloat

/-- Not-a-number: exponent all ones, fraction non-zero. -/
def isNaN (x : CFloat) : Bool := x.expo == 255 && x.frac != 0

/-- Finite values: exponent not all ones. -/
def isFinite (x : CFloat) : Bool := decide (x.expo < 255)

/-- Positive or negative zero. -/
def isZero (x : CFloat) : Bool := x.expo == 0 && x.frac == 0

/-- The comparison `x > 0.0` (false for NaN, for zeros and for negative values). -/
def gtZero (x : CFloat) : Bool := !x.isNaN && !x.sign && !x.isZero

/-- The comparison `x <= 0.0` (false for NaN; true for both zeros and for negative values). -/
def leZero (x : CFloat) : Bool := !x.isNaN && (x.sign || x.isZero)

/-- The 24-bit significand (with the hidden bit for normal numbers). -/
def significand (x : CFloat) : Nat := if x.expo = 0 then x.frac else 8388608 + x.frac

/-- The biased exponent in effect (subnormals share the exponent of the smallest normals). -/
def effExpo (x : CFloat) : Nat := if x.expo = 0 then 1 else x.expo

/-- Numerator of the magnitude of a finite value: `|x| = magNum x / magDen x`. -/
def magNum (x : CFloat) : Nat := x.significand * 2 ^ (x.effExpo - 150)

/-- Denominator of the magnitude of a finite value. -/
def magDen (x : CFloat) : Nat := 2 ^ (150 - x.effExpo)

end CFloat

/-! ## Text formatting -/

/-- The character of a decimal digit. -/
def digitChar (d : Nat) : Char := Char.ofNat (48 + d)

/-- Decimal digits of `n` in front of `acc`, most significant first. -/
def decDigitsAux : Nat → Nat → List Char → List Char
  | 0, _, acc => acc
  | fuel + 1, n, acc =>
    if n < 10 then digitChar n :: acc
    else decDigitsAux fuel (n / 10) (digitChar (n % 10) :: acc)

/-- Decimal digits of a natural number, most significant first, `0` giving one digit. -/
def decDigits (n : Nat) : List Char := decDigitsAux (n + 1) n []

/-- The text of the conversion `%d`: an optional minus sign and the decimal digits. -/
def fmt_d (n : CInt) : List Char :=
  if n.val < 0 then '-' :: decDigits n.val.natAbs else decDigits n.val.natAbs

/-- The text of the format `L"Level %d"`. -/
def fmt_Level_d (n : CInt) : List Char :=
  ['L', 'e', 'v', 'e', 'l', ' '] ++ fmt_d n

/-- The value of `num / den` in tenths, rounded to nearest, ties to even. -/
def roundTenths (num den : Nat) : Nat :=
  let q := num * 10 / den
  let r := num * 10 % den
  if 2 * r < den then q
  else if den < 2 * r then q + 1
  else if q % 2 = 0 then q else q + 1

/-- The magnitude of a finite value in tenths, as `%.1f` rounds it. -/
def CFloat.tenths (x : CFloat) : Nat := roundTenths x.magNum x.magDen

/-- The text of the conversion `%.1f` for a finite value: sign, integer digits, point, one
digit. -/
def fixed1 (x : CFloat) : List Char :=
  (if x.sign then ['-'] else []) ++ decDigits (x.tenths / 10) ++ ['.', digitChar (x.tenths % 10)]

/-- Right-justify in a field of at least `width` characters. -/
def padLeft (width : Nat) (s : List Char) : List Char :=
  List.replicate (width - s.length) ' ' ++ s

/-- What the handlers need from outside the sources: the C runtime's spelling of infinities
and NaNs under `%f`, and the visual-state group (declared in the XAML page) of a state
name, if the page has a state of that name. -/
structure Host where
  nonFiniteText : CFloat → List Char
  stateGroup : String → Option Nat

/-- The text of the format `L"%6.1f sec"`. -/
def fmt_6_1f_sec (h : Host) (x : CFloat) : List Char :=
  padLeft 6 (if x.isFinite then fixed1 x else h.nonFiniteText x) ++ [' ', 's', 'e', 'c']

/-- The string terminator. -/
def NUL : Char := Char.ofNat 0

/-- The formatter `swprintf_s(buffer, bufferLength, ...)` applied to the text the format
expands to: when the text and its terminator fit, the written part of the buffer and the
number of characters without the terminator; otherwise `none` (the invalid-parameter
fault). -/
def swprintf_s (bufferLength : Nat) (text : List Char) : Option (List Char × Nat) :=
  if text.length + 1 ≤ bufferLength then some (text ++ [NUL], text.length) else none

/-- The constructor `Platform::String(buffer, length)`: the first `length` characters. -/
def PlatformString (buffer : List Char) (length : Nat) : String :=
  String.mk (buffer.take length)

/-- The size `bufferLength` of the static scratch buffer of every handler. -/
def bufferLength : Nat := 20

/-! ## The panel -/

/-- The state the UI-thread handlers read and write: the properties of the XAML elements of
the page that the handlers assign, the current visual state of each visual-state group, and
the member `m_playActive`. -/
structure ScenePanel where
  GameInfoOverlayTitle : String
  Loading : Visibility
  Stats : Visibility
  LevelStart : Visibility
  PauseData : Visibility
  LoadingProgress_IsActive : Bool
  LevelsCompleted : String
  TotalPoints : String
  TotalShots : String
  HighScoreTitle : Visibility
  HighScoreData : Visibility
  HighScore : String
  Objective : String
  TimeLimit : String
  BonusTimeTitle : Visibility
  BonusTimeData : Visibility
  BonusTime : String
  PauseLevel : String
  PauseHits : String
  PauseShots : String
  PauseTimeRemaining : String
  PlayAgain : Visibility
  PleaseWait : Visibility
  TapToContinue : Visibility
  visualState : Nat → Option String
  m_playActive : Bool

/-- How a handler ends: it ran to its last statement, or a formatter fault ended it; either
way with the panel as the statements executed so far left it. -/
inductive Outcome
  | completed (ui : ScenePanel)
  | aborted (ui : ScenePanel)

/-- The panel a handler leaves behind. -/
def Outcome.ui : Outcome → ScenePanel
  | .completed ui => ui
  | .aborted ui => ui

/-- Whether the handler ran to its last statement. -/
def Outcome.isCompleted : Outcome → Bool
  | .completed _ => true
  | .aborted _ => false

/-- The call `VisualStateManager::GoToState(this, stateName, true)`: the group of the named
state makes it its current state; a name the page does not declare changes nothing. -/
def GoToState (h : Host) (ui : ScenePanel) (stateName : String) : ScenePanel :=
  match h.stateGroup stateName with
  | none => ui
  | some g => { ui with visualState := Function.update ui.visualState g (some stateName) }

/-! ## The handlers dispatched by the `IGameUIControl` methods -/

/-- The lambda of `ScenePanel::SetGameLoading`. -/
def SetGameLoading_handler (ui : ScenePanel) : Outcome :=
  let ui := { ui with GameInfoOverlayTitle := "Loading Resources" }
  let ui := { ui with Loading := .Visible }
  let ui := { ui with Stats := .Collapsed }
  let ui := { ui with LevelStart := .Collapsed }
  let ui := { ui with PauseData := .Collapsed }
  let ui := { ui with LoadingProgress_IsActive := true }
  .completed ui

/-- The lambda of `ScenePanel::SetGameStats`. -/
def SetGameStats_handler (maxLevel hitCount shotCount : CInt) (ui : ScenePanel) : Outcome :=
  let ui := { ui with GameInfoOverlayTitle := "Game Statistics" }
  let ui := { ui with Loading := .Collapsed }
  let ui := { ui with Stats := .Visible }
  let ui := { ui with LevelStart := .Collapsed }
  let ui := { ui with PauseData := .Collapsed }
  match swprintf_s bufferLength (fmt_d maxLevel) with
  | none => .aborted ui
  | some (wsbuffer, length) =>
  let ui := { ui with LevelsCompleted := PlatformString wsbuffer length }
  match swprintf_s bufferLength (fmt_d hitCount) with
  | none => .aborted ui
  | some (wsbuffer, length) =>
  let ui := { ui with TotalPoints := PlatformString wsbuffer length }
  match swprintf_s bufferLength (fmt_d shotCount) with
  | none => .aborted ui
  | some (wsbuffer, length) =>
  let ui := { ui with TotalShots := PlatformString wsbuffer length }
  let ui := { ui with HighScoreTitle := .Collapsed }
  let ui := { ui with HighScoreData := .Collapsed }
  .completed ui

/-- The lambda of `ScenePanel::SetGameOver`. -/
def SetGameOver_handler (win : Bool) (maxLevel hitCount shotCount highScore : CInt)
    (ui : ScenePanel) : Outcome :=
  let ui :=
    if win then { ui with GameInfoOverlayTitle := "You Won!" }
    else { ui with GameInfoOverlayTitle := "Game Over" }
  let ui := { ui with Loading := .Collapsed }
  let ui := { ui with Stats := .Visible }
  let ui := { ui with LevelStart := .Collapsed }
  let ui := { ui with PauseData := .Collapsed }
  match swprintf_s bufferLength (fmt_d maxLevel) with
  | none => .aborted ui
  | some (wsbuffer, length) =>
  let ui := { ui with LevelsCompleted := PlatformString wsbuffer length }
  match swprintf_s bufferLength (fmt_d hitCount) with
  | none => .aborted ui
  | some (wsbuffer, length) =>
  let ui := { ui with TotalPoints := PlatformString wsbuffer length }
  match swprintf_s bufferLength (fmt_d shotCount) with
  | none => .aborted ui
  | some (wsbuffer, length) =>
  let ui := { ui with TotalShots := PlatformString wsbuffer length }
  let ui := { ui with HighScoreTitle := .Visible }
  let ui := { ui with HighScoreData := .Visible }
  match swprintf_s bufferLength (fmt_d highScore) with
  | none => .aborted ui
  | some (wsbuffer, length) =>
  let ui := { ui with HighScore := PlatformString wsbuffer length }
  .completed ui

/-- The lambda of `ScenePanel::SetLevelStart`. -/
def SetLevelStart_handler (h : Host) (level : CInt) (objective : String)
    (timeLimit bonusTime : CFloat) (ui : ScenePanel) : Outcome :=
  match swprintf_s bufferLength (fmt_Level_d level) with
  | none => .aborted ui
  | some (wsbuffer, length) =>
  let ui := { ui with GameInfoOverlayTitle := PlatformString wsbuffer length }
  let ui := { ui with Loading := .Collapsed }
  let ui := { ui with Stats := .Collapsed }
  let ui := { ui with LevelStart := .Visible }
  let ui := { ui with PauseData := .Collapsed }
  let ui := { ui with Objective := objective }
  match swprintf_s bufferLength (fmt_6_1f_sec h timeLimit) with
  | none => .aborted ui
  | some (wsbuffer, length) =>
  let ui := { ui with TimeLimit := PlatformString wsbuffer length }
  if bonusTime.gtZero then
    let ui := { ui with BonusTimeTitle := .Visible }
    let ui := { ui with BonusTimeData := .Visible }
    match swprintf_s bufferLength (fmt_6_1f_sec h bonusTime) with
    | none => .aborted ui
    | some (wsbuffer, length) =>
    let ui := { ui with BonusTime := PlatformString wsbuffer length }
    .completed ui
  else
    let ui := { ui with BonusTimeTitle := .Collapsed }
    let ui := { ui with BonusTimeData := .Collapsed }
    .completed ui

/-- The lambda of `ScenePanel::SetPause`. -/
def SetPause_handler (h : Host) (level hitCount shotCount : CInt) (timeRemaining : CFloat)
    (ui : ScenePanel) : Outcome :=
  let ui := { ui with GameInfoOverlayTitle := "Paused" }
  let ui := { ui with Loading := .Collapsed }
  let ui := { ui with Stats := .Collapsed }
  let ui := { ui with LevelStart := .Collapsed }
  let ui := { ui with PauseData := .Visible }
  match swprintf_s bufferLength (fmt_d level) with
  | none => .aborted ui
  | some (wsbuffer, length) =>
  let ui := { ui with PauseLevel := PlatformString wsbuffer length }
  match swprintf_s bufferLength (fmt_d hitCount) with
  | none => .aborted ui
  | some (wsbuffer, length) =>
  let ui := { ui with PauseHits := PlatformString wsbuffer length }
  match swprintf_s bufferLength (fmt_d shotCount) with
  | none => .aborted ui
  | some (wsbuffer, length) =>
  let ui := { ui with PauseShots := PlatformString wsbuffer length }
  match swprintf_s bufferLength (fmt_6_1f_sec h timeRemaining) with
  | none => .aborted ui
  | some (wsbuffer, length) =>
  let ui := { ui with PauseTimeRemaining := PlatformString wsbuffer length }
  .completed ui

/-- The lambda of `ScenePanel::ShowTooSmall`. -/
def ShowTooSmall_handler (h : Host) (ui : ScenePanel) : Outcome :=
  .completed (GoToState h ui "TooSmallState")

/-- The lambda of `ScenePanel::HideTooSmall`. -/
def HideTooSmall_handler (h : Host) (ui : ScenePanel) : Outcome :=
  .completed (GoToState h ui "NotTooSmallState")

/-- The lambda of `ScenePanel::HideGameInfoOverlay`. -/
def HideGameInfoOverlay_handler (h : Host) (ui : ScenePanel) : Outcome :=
  let ui := GoToState h ui "NormalState"
  let ui := { ui with m_playActive := true }
  .completed ui

/-- The lambda of `ScenePanel::SetAction`. -/
def SetAction_handler (action : GameInfoOverlayCommand) (ui : ScenePanel) : Outcome :=
  let ui := { ui with PlayAgain := .Collapsed }
  let ui := { ui with PleaseWait := .Collapsed }
  let ui := { ui with TapToContinue := .Collapsed }
  match action with
  | .PlayAgain => .completed { ui with PlayAgain := .Visible }
  | .PleaseWait => .completed { ui with PleaseWait := .Visible }
  | .TapToContinue => .completed { ui with TapToContinue := .Visible }
  | .None => .completed ui

/-- The lambda of `ScenePanel::ShowGameInfoOverlay`. -/
def ShowGameInfoOverlay_handler (h : Host) (ui : ScenePanel) : Outcome :=
  let ui := GoToState h ui "GameInfoOverlayState"
  let ui := { ui with m_playActive := false }
  .completed ui

/-! ## The dispatcher -/

/-- A handler waiting for the UI thread. -/
abbrev DispatchedHandler := ScenePanel → Outcome

/-- The UI thread runs the queued handlers one after the other, first in first out; a
fault in a handler ends the run. -/
def runQueue : List DispatchedHandler → ScenePanel → Outcome
  | [], ui => .completed ui
  | t :: ts, ui =>
    match t ui with
    | .completed ui1 => runQueue ts ui1
    | .aborted ui1 => .aborted ui1

/-- A call of one of the `IGameUIControl` methods, with its arguments. -/
inductive Call
  | SetGameLoading
  | SetGameStats (maxLevel hitCount shotCount : CInt)
  | SetGameOver (win : Bool) (maxLevel hitCount shotCount highScore : CInt)
  | SetLevelStart (level : CInt) (objective : String) (timeLimit bonusTime : CFloat)
  | SetPause (level hitCount shotCount : CInt) (timeRemaining : CFloat)
  | ShowTooSmall
  | HideTooSmall
  | HideGameInfoOverlay
  | SetAction (action : GameInfoOverlayCommand)
  | ShowGameInfoOverlay

/-- The handler a call hands to `Dispatcher->RunAsync`, its arguments captured by value. -/
def Call.handler (h : Host) : Call → DispatchedHandler
  | .SetGameLoading => SetGameLoading_handler
  | .SetGameStats maxLevel hitCount shotCount => SetGameStats_handler maxLevel hitCount shotCount
  | .SetGameOver win maxLevel hitCount shotCount highScore =>
    SetGameOver_handler win maxLevel hitCount shotCount highScore
  | .SetLevelStart level objective timeLimit bonusTime =>
    SetLevelStart_handler h level objective timeLimit bonusTime
  | .SetPause level hitCount shotCount timeRemaining =>
    SetPause_handler h level hitCount shotCount timeRemaining
  | .ShowTooSmall => ShowTooSmall_handler h
  | .HideTooSmall => HideTooSmall_handler h
  | .HideGameInfoOverlay => HideGameInfoOverlay_handler h
  | .SetAction action => SetAction_handler action
  | .ShowGameInfoOverlay => ShowGameInfoOverlay_handler h

/-- The calls that select one of the four panels of the overlay. -/
def Call.isPanelCall : Call → Bool
  | .SetGameLoading => true
  | .SetGameStats _ _ _ => true
  | .SetGameOver _ _ _ _ _ => true
  | .SetLevelStart _ _ _ _ => true
  | .SetPause _ _ _ _ => true
  | _ => false

/-- The four mutually exclusive panels of the overlay, in the order Loading, Stats,
LevelStart, PauseData. -/
def ScenePanel.panels (ui : ScenePanel) : Visibility × Visibility × Visibility × Visibility :=
  (ui.Loading, ui.Stats, ui.LevelStart, ui.PauseData)

/-- The three command elements at the bottom of the overlay, in the order PlayAgain,
PleaseWait, TapToContinue. -/
def ScenePanel.commands (ui : ScenePanel) : Visibility × Visibility × Visibility :=
  (ui.PlayAgain, ui.PleaseWait, ui.TapToContinue)

/-- The natural number a list of decimal digits spells. -/
def readNat (ds : List Char) : Nat :=
  ds.foldl (fun a c => 10 * a + (c.toNat - 48)) 0

/-- The integer a decimal text with an optional leading minus sign spells. -/
def readInt : List Char → Int
  | '-' :: ds => -(readNat ds : Int)
  | ds => (readNat ds : Int)

/-- A decimal digit character. -/
def IsDigit (c : Char) : Prop := 48 ≤ c.toNat ∧ c.toNat ≤ 57

/-- The steps of the code that runs under the game driver's critical section.  `Lock` is the
constructor of `critical_section::scoped_lock` on `m_main->GetCriticalSection()`, `Unlock`
its destructor at the end of the scope. -/
inductive Instr
  | Lock
  | SetCompositionScale
  | SetLogicalSize
  | CreateWindowSizeDependentResources
  | Unlock
  deriving DecidableEq, Repr

/-- The body of `ScenePanel::OnCompositionScaleChanged`. -/
def OnCompositionScaleChanged : List Instr :=
  [.Lock, .SetCompositionScale, .CreateWindowSizeDependentResources, .Unlock]

/-- The body of `ScenePanel::OnSwapChainPanelSizeChanged`. -/
def OnSwapChainPanelSizeChanged : List Instr :=
  [.Lock, .SetLogicalSize, .CreateWindowSizeDependentResources, .Unlock]

/-- Modelled from the spec: the resource-rebuild path of the game driver is not among the
sources; the spec has it hold the same critical section around its call of
`CreateWindowSizeDependentResources`. -/
def driverRebuild : List Instr :=
  [.Lock, .CreateWindowSizeDependentResources, .Unlock]

/-- What a thread can be asked to run: one of the two handlers, or the driver's rebuild. -/
inductive Activity
  | compositionScaleChanged
  | swapChainPanelSizeChanged
  | rebuild
  deriving DecidableEq, Repr

/-- The steps of an activity. -/
def Activity.body : Activity → List Instr
  | .compositionScaleChanged => OnCompositionScaleChanged
  | .swapChainPanelSizeChanged => OnSwapChainPanelSizeChanged
  | .rebuild => driverRebuild

/-- The steps of a thread that runs the given activities one after the other. -/
def program : List Activity → List Instr
  | [] => []
  | a :: as => a.body ++ program as

/-- The threads of the application: the thread that holds the critical section, if any, and
the steps each thread still has to run. -/
structure Threads where
  owner : Option Nat
  remaining : Nat → List Instr

/-- All threads at the start of their work, the critical section free. -/
def start (work : Nat → List Activity) : Threads where
  owner := none
  remaining := fun i => program (work i)

/-- Thread `i` is given the processor for one step.  A thread with nothing left stays as it
is; a thread at `Lock` takes the critical section when it is free and otherwise waits. -/
def stepThread (s : Threads) (i : Nat) : Threads :=
  match s.remaining i with
  | [] => s
  | instr :: rest =>
    match instr with
    | .Lock =>
      if s.owner = none then ⟨some i, Function.update s.remaining i rest⟩ else s
    | .Unlock => ⟨none, Function.update s.remaining i rest⟩
    | .SetCompositionScale => ⟨s.owner, Function.update s.remaining i rest⟩
    | .SetLogicalSize => ⟨s.owner, Function.update s.remaining i rest⟩
    | .CreateWindowSizeDependentResources => ⟨s.owner, Function.update s.remaining i rest⟩

/-- An interleaving: the threads are given the processor in the order of the schedule. -/
def runSchedule (s : Threads) : List Nat → Threads
  | [] => s
  | i :: schedule => runSchedule (stepThread s i) schedule

/-- Whether a thread with these steps left is inside the region between `Lock` and
`Unlock`: its next `Unlock` comes before its next `Lock`. -/
def insideRegion : List Instr → Bool
  | [] => false
  | .Lock :: _ => false
  | .Unlock :: _ => true
  | _ :: rest => insideRegion rest

/-- The steps left to a thread agree with whether it holds the critical section: every
`Lock` is met outside the region, everything else inside, and the region is closed by an
`Unlock`. -/
def wellLocked : Bool → List Instr → Bool
  | false, [] => true
  | false, .Lock :: rest => wellLocked true rest
  | false, _ :: _ => false
  | true, [] => false
  | true, .Lock :: _ => false
  | true, .Unlock :: rest => wellLocked false rest
  | true, _ :: rest => wellLocked true rest

/-- The steps left to each thread agree with whether it holds the critical
section. -/
def Consistent (s : Threads) : Prop :=
  ∀ j : Nat, wellLocked (decide (s.owner = some j)) (s.remaining j) = true

/-! ## Concrete values for evaluating the handlers -/

/-- A host with the C99 spellings of the non-finite values, and the four state names the
handlers use placed in two visual-state groups. -/
def sampleHost : Host where
  nonFiniteText := fun x =>
    if x.isNaN then ['n', 'a', 'n'] else if x.sign then ['-', 'i', 'n', 'f'] else ['i', 'n', 'f']
  stateGroup := fun stateName =>
    if stateName = "TooSmallState" ∨ stateName = "NotTooSmallState" then some 0
    else if stateName = "NormalState" ∨ stateName = "GameInfoOverlayState" then some 1
    else none

/-- A panel with every element collapsed and every text empty. -/
def samplePanel : ScenePanel where
  GameInfoOverlayTitle := ""
  Loading := .Collapsed
  Stats := .Collapsed
  LevelStart := .Collapsed
  PauseData := .Collapsed
  LoadingProgress_IsActive := false
  LevelsCompleted := ""
  TotalPoints := ""
  TotalShots := ""
  HighScoreTitle := .Collapsed
  HighScoreData := .Collapsed
  HighScore := ""
  Objective := ""
  TimeLimit := ""
  BonusTimeTitle := .Collapsed
  BonusTimeData := .Collapsed
  BonusTime := ""
  PauseLevel := ""
  PauseHits := ""
  PauseShots := ""
  PauseTimeRemaining := ""
  PlayAgain := .Collapsed
  PleaseWait := .Collapsed
  TapToContinue := .Collapsed
  visualState := fun _ => none
  m_playActive := false

/-- The `int` of a small natural number. -/
def CInt.small (n : Nat) (hn : n ≤ 2147483647) : CInt where
  val := n
  lo := by omega
  hi := by omega

/-- The `float` 1.0f. -/
def CFloat.one : CFloat := ⟨false, 127, 0, by decide, by decide⟩

/-- The `float` 30.0f. -/
def CFloat.thirty : CFloat := ⟨false, 131, 7340032, by decide, by decide⟩

/-- The `float` 2^44 = 17592186044416.0f. -/
def CFloat.twoPow44 : CFloat := ⟨false, 171, 0, by decide, by decide⟩

/-- A quiet NaN. -/
def CFloat.quietNaN : CFloat := ⟨false, 255, 4194304, by decide, by decide⟩

/-- Two threads: thread 0 runs the size handler, thread 1 the scale handler and then the
driver's rebuild. -/
def sampleWork (i : Nat) : List Activity :=
  if i = 0 then [.swapChainPanelSizeChanged]
  else if i = 1 then [.compositionScaleChanged, .rebuild]
  else []

/-! ## Lemmas on the formatter -/

theorem digitChar_toNat (d : Nat) (hd : d < 10) : (digitChar d).toNat = 48 + d := by
  interval_cases d <;> rfl

theorem digitChar_isDigit (d : Nat) (hd : d < 10) : IsDigit (digitChar d) := by
  unfold IsDigit
  rw [digitChar_toNat d hd]
  omega

theorem decDigitsAux_append (fuel : Nat) : ∀ (n : Nat) (acc : List Char),
    decDigitsAux fuel n acc = decDigitsAux fuel n [] ++ acc := by
  induction fuel with
  | zero => intro n acc; simp [decDigitsAux]
  | succ f ih =>
    intro n acc
    unfold decDigitsAux
    by_cases hn : n < 10
    · simp [hn]
    · simp only [hn, if_false]
      rw [ih (n / 10) (digitChar (n % 10) :: acc), ih (n / 10) [digitChar (n % 10)]]
      simp

theorem decDigitsAux_length_le (fuel : Nat) : ∀ (n k : Nat) (acc : List Char),
    0 < k → n < 10 ^ k → (decDigitsAux fuel n acc).length ≤ k + acc.length := by
  induction fuel with
  | zero => intro n k acc _ _; simp [decDigitsAux]
  | succ f ih =>
    intro n k acc hk hn
    unfold decDigitsAux
    by_cases h10 : n < 10
    · simp only [h10, if_true, List.length_cons]; omega
    · simp only [h10, if_false]
      obtain ⟨j, rfl⟩ : ∃ j, k = j + 1 := ⟨k - 1, by omega⟩
      have hj : 0 < j := by
        rcases Nat.eq_zero_or_pos j with h0 | h0
        · subst h0; simp at hn; omega
        · exact h0
      have hdiv : n / 10 < 10 ^ j := by
        rw [Nat.div_lt_iff_lt_mul (by norm_num)]
        rw [pow_succ] at hn; exact hn
      have := ih (n / 10) j (digitChar (n % 10) :: acc) hj hdiv
      simp only [List.length_cons] at this
      omega

theorem decDigits_length_le (n k : Nat) (hk : 0 < k) (hn : n < 10 ^ k) :
    (decDigits n).length ≤ k := by
  have := decDigitsAux_length_le (n + 1) n k [] hk hn
  simpa [decDigits] using this

theorem decDigitsAux_isDigit (fuel : Nat) : ∀ (n : Nat) (acc : List Char),
    (∀ c ∈ acc, IsDigit c) → ∀ c ∈ decDigitsAux fuel n acc, IsDigit c := by
  induction fuel with
  | zero => intro n acc hacc c hc; exact hacc c (by simpa [decDigitsAux] using hc)
  | succ f ih =>
    intro n acc hacc c hc
    unfold decDigitsAux at hc
    by_cases h10 : n < 10
    · simp only [h10, if_true, List.mem_cons] at hc
      rcases hc with rfl | hc
      · exact digitChar_isDigit n h10
      · exact hacc c hc
    · simp only [h10, if_false] at hc
      refine ih (n / 10) (digitChar (n % 10) :: acc) ?_ c hc
      intro d hd
      rcases List.mem_cons.mp hd with rfl | hd
      · exact digitChar_isDigit _ (Nat.mod_lt _ (by norm_num))
      · exact hacc d hd

theorem decDigits_isDigit (n : Nat) : ∀ c ∈ decDigits n, IsDigit c :=
  decDigitsAux_isDigit (n + 1) n [] (by simp)

theorem readNat_append_digit (ds : List Char) (d : Nat) (hd : d < 10) :
    readNat (ds ++ [digitChar d]) = 10 * readNat ds + d := by
  simp [readNat, List.foldl_append, digitChar_toNat d hd]

theorem readNat_decDigitsAux (fuel : Nat) : ∀ (n : Nat), n < fuel →
    readNat (decDigitsAux fuel n []) = n := by
  induction fuel with
  | zero => intro n hn; omega
  | succ f ih =>
    intro n hn
    unfold decDigitsAux
    by_cases h10 : n < 10
    · simp only [h10, if_true]
      have := readNat_append_digit [] n h10
      simpa [readNat] using this
    · simp only [h10, if_false]
      rw [decDigitsAux_append, readNat_append_digit _ _ (Nat.mod_lt _ (by norm_num)),
        ih (n / 10) (by omega)]
      omega

theorem readNat_decDigits (n : Nat) : readNat (decDigits n) = n :=
  readNat_decDigitsAux (n + 1) n (by omega)

theorem decDigits_head_ne_minus (n : Nat) : ∀ ds, decDigits n ≠ '-' :: ds := by
  intro ds h
  have := decDigits_isDigit n '-' (by rw [h]; simp)
  unfold IsDigit at this
  have h45 : ('-' : Char).toNat = 45 := rfl
  omega

theorem readInt_fmt_d (n : CInt) : readInt (fmt_d n) = n.val := by
  unfold fmt_d
  by_cases hneg : n.val < 0
  · simp only [hneg, if_true, readInt, readNat_decDigits]
    omega
  · simp only [hneg, if_false]
    have hne := decDigits_head_ne_minus n.val.natAbs
    have : readInt (decDigits n.val.natAbs) = (readNat (decDigits n.val.natAbs) : Int) := by
      cases hds : decDigits n.val.natAbs with
      | nil => rfl
      | cons c cs =>
        by_cases hc : c = '-'
        · subst hc; exact absurd hds (hne cs)
        · unfold readInt; split
          · rename_i heq; simp at heq; exact absurd heq.1 hc
          · rfl
    rw [this, readNat_decDigits]
    omega

theorem fmt_d_length_le (n : CInt) : (fmt_d n).length ≤ 11 := by
  have hlo := n.lo
  have hhi := n.hi
  have hd : (decDigits n.val.natAbs).length ≤ 10 :=
    decDigits_length_le _ 10 (by norm_num) (by norm_num; omega)
  unfold fmt_d
  split
  · simp only [List.length_cons]; omega
  · omega

theorem fmt_Level_d_length (n : CInt) : (fmt_Level_d n).length = 6 + (fmt_d n).length := by
  simp [fmt_Level_d]; omega

theorem swprintf_s_fits (text : List Char) (h : text.length + 1 ≤ bufferLength) :
    swprintf_s bufferLength text = some (text ++ [NUL], text.length) := by
  simp [swprintf_s, h]

theorem swprintf_s_overflow (text : List Char) (h : bufferLength < text.length + 1) :
    swprintf_s bufferLength text = none := by
  simp [swprintf_s]; omega

theorem swprintf_s_fmt_d (n : CInt) :
    swprintf_s bufferLength (fmt_d n) = some (fmt_d n ++ [NUL], (fmt_d n).length) :=
  swprintf_s_fits _ (by have := fmt_d_length_le n; simp only [bufferLength]; omega)

theorem swprintf_s_fmt_Level_d (n : CInt) :
    swprintf_s bufferLength (fmt_Level_d n)
      = some (fmt_Level_d n ++ [NUL], (fmt_Level_d n).length) :=
  swprintf_s_fits _ (by
    have := fmt_d_length_le n
    rw [fmt_Level_d_length]; simp only [bufferLength]; omega)

theorem PlatformString_written (text : List Char) :
    PlatformString (text ++ [NUL]) text.length = String.mk text := by
  simp [PlatformString]

theorem padLeft_length (width : Nat) (s : List Char) :
    (padLeft width s).length = max width s.length := by
  simp [padLeft]; omega

theorem fixed1_length (x : CFloat) :
    (fixed1 x).length = (if x.sign then 1 else 0) + (decDigits (x.tenths / 10)).length + 2 := by
  unfold fixed1
  cases x.sign
  · simp
  · simp; omega

theorem fmt_6_1f_sec_length (h : Host) (x : CFloat) :
    (fmt_6_1f_sec h x).length
      = max 6 (if x.isFinite then fixed1 x else h.nonFiniteText x).length + 4 := by
  simp [fmt_6_1f_sec, padLeft_length]

theorem roundTenths_le (num den : Nat) : roundTenths num den ≤ num * 10 / den + 1 := by
  unfold roundTenths
  simp only
  split
  · omega
  · split
    · omega
    · split <;> omega

theorem CFloat.tenths_div_lt (x : CFloat) (hx : x.expo ≤ 162) : x.tenths / 10 < 10 ^ 12 := by
  have hsig : x.significand < 16777216 := by
    have := x.frac_lt
    unfold CFloat.significand; split <;> omega
  have hpow : 2 ^ (x.effExpo - 150) ≤ 2 ^ 12 := by
    apply Nat.pow_le_pow_right (by norm_num)
    unfold CFloat.effExpo; split <;> omega
  have hnum : x.magNum ≤ 16777216 * 2 ^ 12 := by
    unfold CFloat.magNum
    exact Nat.mul_le_mul (Nat.le_of_lt hsig) hpow
  have hden : 0 < x.magDen := by unfold CFloat.magDen; positivity
  have hq : x.magNum * 10 / x.magDen ≤ x.magNum * 10 := Nat.div_le_self _ _
  have ht := roundTenths_le x.magNum x.magDen
  unfold CFloat.tenths
  norm_num at hnum ⊢
  omega

/-- A finite time value below `2 ^ 36` in magnitude always fits the buffer. -/
theorem fmt_6_1f_sec_fits (h : Host) (x : CFloat) (hx : x.expo ≤ 162) :
    (fmt_6_1f_sec h x).length + 1 ≤ bufferLength := by
  have hfin : x.isFinite = true := by simp [CFloat.isFinite]; omega
  have hd := decDigits_length_le (x.tenths / 10) 12 (by norm_num) (x.tenths_div_lt hx)
  rw [fmt_6_1f_sec_length, hfin]
  simp only [if_true, fixed1_length, bufferLength]
  split <;> omega

theorem SetGameStats_handler_eq (maxLevel hitCount shotCount : CInt) (ui : ScenePanel) :
    SetGameStats_handler maxLevel hitCount shotCount ui
      = .completed { ui with
          GameInfoOverlayTitle := "Game Statistics"
          Loading := .Collapsed, Stats := .Visible, LevelStart := .Collapsed
          PauseData := .Collapsed
          LevelsCompleted := String.mk (fmt_d maxLevel)
          TotalPoints := String.mk (fmt_d hitCount)
          TotalShots := String.mk (fmt_d shotCount)
          HighScoreTitle := .Collapsed, HighScoreData := .Collapsed } := by
  simp [SetGameStats_handler, swprintf_s_fmt_d, PlatformString_written]

theorem SetGameOver_handler_eq (win : Bool) (maxLevel hitCount shotCount highScore : CInt)
    (ui : ScenePanel) :
    SetGameOver_handler win maxLevel hitCount shotCount highScore ui
      = .completed { ui with
          GameInfoOverlayTitle := if win then "You Won!" else "Game Over"
          Loading := .Collapsed, Stats := .Visible, LevelStart := .Collapsed
          PauseData := .Collapsed
          LevelsCompleted := String.mk (fmt_d maxLevel)
          TotalPoints := String.mk (fmt_d hitCount)
          TotalShots := String.mk (fmt_d shotCount)
          HighScoreTitle := .Visible, HighScoreData := .Visible
          HighScore := String.mk (fmt_d highScore) } := by
  cases win <;> simp [SetGameOver_handler, swprintf_s_fmt_d, PlatformString_written]

theorem SetPause_handler_fits (h : Host) (level hitCount shotCount : CInt)
    (timeRemaining : CFloat) (ui : ScenePanel)
    (hfit : (fmt_6_1f_sec h timeRemaining).length + 1 ≤ bufferLength) :
    SetPause_handler h level hitCount shotCount timeRemaining ui
      = .completed { ui with
          GameInfoOverlayTitle := "Paused"
          Loading := .Collapsed, Stats := .Collapsed, LevelStart := .Collapsed
          PauseData := .Visible
          PauseLevel := String.mk (fmt_d level)
          PauseHits := String.mk (fmt_d hitCount)
          PauseShots := String.mk (fmt_d shotCount)
          PauseTimeRemaining := String.mk (fmt_6_1f_sec h timeRemaining) } := by
  simp [SetPause_handler, swprintf_s_fmt_d, swprintf_s_fits _ hfit, PlatformString_written]

theorem SetPause_handler_overflow (h : Host) (level hitCount shotCount : CInt)
    (timeRemaining : CFloat) (ui : ScenePanel)
    (hover : bufferLength < (fmt_6_1f_sec h timeRemaining).length + 1) :
    SetPause_handler h level hitCount shotCount timeRemaining ui
      = .aborted { ui with
          GameInfoOverlayTitle := "Paused"
          Loading := .Collapsed, Stats := .Collapsed, LevelStart := .Collapsed
          PauseData := .Visible
          PauseLevel := String.mk (fmt_d level)
          PauseHits := String.mk (fmt_d hitCount)
          PauseShots := String.mk (fmt_d shotCount) } := by
  simp [SetPause_handler, swprintf_s_fmt_d, swprintf_s_overflow _ hover, PlatformString_written]

theorem SetLevelStart_handler_overflow (h : Host) (level : CInt) (objective : String)
    (timeLimit bonusTime : CFloat) (ui : ScenePanel)
    (hover : bufferLength < (fmt_6_1f_sec h timeLimit).length + 1) :
    SetLevelStart_handler h level objective timeLimit bonusTime ui
      = .aborted { ui with
          GameInfoOverlayTitle := String.mk (fmt_Level_d level)
          Loading := .Collapsed, Stats := .Collapsed, LevelStart := .Visible
          PauseData := .Collapsed
          Objective := objective } := by
  simp [SetLevelStart_handler, swprintf_s_fmt_Level_d, swprintf_s_overflow _ hover,
    PlatformString_written]

theorem SetLevelStart_handler_noBonus (h : Host) (level : CInt) (objective : String)
    (timeLimit bonusTime : CFloat) (ui : ScenePanel)
    (hfit : (fmt_6_1f_sec h timeLimit).length + 1 ≤ bufferLength)
    (hb : bonusTime.gtZero = false) :
    SetLevelStart_handler h level objective timeLimit bonusTime ui
      = .completed { ui with
          GameInfoOverlayTitle := String.mk (fmt_Level_d level)
          Loading := .Collapsed, Stats := .Collapsed, LevelStart := .Visible
          PauseData := .Collapsed
          Objective := objective
          TimeLimit := String.mk (fmt_6_1f_sec h timeLimit)
          BonusTimeTitle := .Collapsed, BonusTimeData := .Collapsed } := by
  simp [SetLevelStart_handler, swprintf_s_fmt_Level_d, swprintf_s_fits _ hfit, hb,
    PlatformString_written]

theorem SetLevelStart_handler_bonus (h : Host) (level : CInt) (objective : String)
    (timeLimit bonusTime : CFloat) (ui : ScenePanel)
    (hfit : (fmt_6_1f_sec h timeLimit).length + 1 ≤ bufferLength)
    (hb : bonusTime.gtZero = true)
    (hfitB : (fmt_6_1f_sec h bonusTime).length + 1 ≤ bufferLength) :
    SetLevelStart_handler h level objective timeLimit bonusTime ui
      = .completed { ui with
          GameInfoOverlayTitle := String.mk (fmt_Level_d level)
          Loading := .Collapsed, Stats := .Collapsed, LevelStart := .Visible
          PauseData := .Collapsed
          Objective := objective
          TimeLimit := String.mk (fmt_6_1f_sec h timeLimit)
          BonusTimeTitle := .Visible, BonusTimeData := .Visible
          BonusTime := String.mk (fmt_6_1f_sec h bonusTime) } := by
  simp [SetLevelStart_handler, swprintf_s_fmt_Level_d, swprintf_s_fits _ hfit, hb,
    swprintf_s_fits _ hfitB, PlatformString_written]

theorem SetLevelStart_handler_bonusOverflow (h : Host) (level : CInt) (objective : String)
    (timeLimit bonusTime : CFloat) (ui : ScenePanel)
    (hfit : (fmt_6_1f_sec h timeLimit).length + 1 ≤ bufferLength)
    (hb : bonusTime.gtZero = true)
    (hover : bufferLength < (fmt_6_1f_sec h bonusTime).length + 1) :
    SetLevelStart_handler h level objective timeLimit bonusTime ui
      = .aborted { ui with
          GameInfoOverlayTitle := String.mk (fmt_Level_d level)
          Loading := .Collapsed, Stats := .Collapsed, LevelStart := .Visible
          PauseData := .Collapsed
          Objective := objective
          TimeLimit := String.mk (fmt_6_1f_sec h timeLimit)
          BonusTimeTitle := .Visible, BonusTimeData := .Visible } := by
  simp [SetLevelStart_handler, swprintf_s_fmt_Level_d, swprintf_s_fits _ hfit, hb,
    swprintf_s_overflow _ hover, PlatformString_written]

/-- The four ways `SetLevelStart_handler` can end, told apart by its arguments alone. -/
theorem SetLevelStart_handler_cases (h : Host) (timeLimit bonusTime : CFloat) :
    (bufferLength < (fmt_6_1f_sec h timeLimit).length + 1)
    ∨ ((fmt_6_1f_sec h timeLimit).length + 1 ≤ bufferLength ∧ bonusTime.gtZero = false)
    ∨ ((fmt_6_1f_sec h timeLimit).length + 1 ≤ bufferLength ∧ bonusTime.gtZero = true
        ∧ (fmt_6_1f_sec h bonusTime).length + 1 ≤ bufferLength)
    ∨ ((fmt_6_1f_sec h timeLimit).length + 1 ≤ bufferLength ∧ bonusTime.gtZero = true
        ∧ bufferLength < (fmt_6_1f_sec h bonusTime).length + 1) := by
  cases hb : bonusTime.gtZero <;> simp <;> omega

theorem GoToState_GoToState (h : Host) (ui : ScenePanel) (stateName : String) :
    GoToState h (GoToState h ui stateName) stateName = GoToState h ui stateName := by
  unfold GoToState
  cases hg : h.stateGroup stateName <;> simp [hg]

theorem GoToState_m_playActive (h : Host) (ui : ScenePanel) (stateName : String) (b : Bool) :
    GoToState h { ui with m_playActive := b } stateName
      = { GoToState h ui stateName with m_playActive := b } := by
  unfold GoToState
  cases hg : h.stateGroup stateName <;> simp [hg]

theorem runQueue_append (ts us : List DispatchedHandler) :
    ∀ ui : ScenePanel, runQueue (ts ++ us) ui
      = match runQueue ts ui with
        | .completed ui1 => runQueue us ui1
        | .aborted ui1 => .aborted ui1 := by
  induction ts with
  | nil => intro ui; simp [runQueue]
  | cons a as ih =>
    intro ui
    simp only [List.cons_append, runQueue]
    cases ha : a ui with
    | completed u => simp [ih u]
    | aborted u => simp

theorem runQueue_singleton_ui (t : DispatchedHandler) (ui : ScenePanel) :
    (runQueue [t] ui).ui = (t ui).ui := by
  simp only [runQueue]
  cases t ui <;> rfl

/-- The title and the four panels a panel call leaves do not depend on the panel it
started from. -/
theorem Call.panel_result_indep (h : Host) (c : Call) (hc : c.isPanelCall = true)
    (ui1 ui2 : ScenePanel) :
    (c.handler h ui1).ui.GameInfoOverlayTitle = (c.handler h ui2).ui.GameInfoOverlayTitle
    ∧ (c.handler h ui1).ui.panels = (c.handler h ui2).ui.panels := by
  cases c with
  | SetGameLoading => exact ⟨rfl, rfl⟩
  | SetGameStats a b c =>
    simp only [Call.handler, SetGameStats_handler_eq]; exact ⟨rfl, rfl⟩
  | SetGameOver w a b c d =>
    simp only [Call.handler, SetGameOver_handler_eq]; exact ⟨rfl, rfl⟩
  | SetLevelStart level objective timeLimit bonusTime =>
    simp only [Call.handler]
    rcases SetLevelStart_handler_cases h timeLimit bonusTime with
      h1 | ⟨h1, h2⟩ | ⟨h1, h2, h3⟩ | ⟨h1, h2, h3⟩
    · simp only [SetLevelStart_handler_overflow _ _ _ _ _ _ h1]; exact ⟨rfl, rfl⟩
    · simp only [SetLevelStart_handler_noBonus _ _ _ _ _ _ h1 h2]; exact ⟨rfl, rfl⟩
    · simp only [SetLevelStart_handler_bonus _ _ _ _ _ _ h1 h2 h3]; exact ⟨rfl, rfl⟩
    · simp only [SetLevelStart_handler_bonusOverflow _ _ _ _ _ _ h1 h2 h3]; exact ⟨rfl, rfl⟩
  | SetPause level hitCount shotCount timeRemaining =>
    simp only [Call.handler]
    by_cases hfit : (fmt_6_1f_sec h timeRemaining).length + 1 ≤ bufferLength
    · simp only [SetPause_handler_fits _ _ _ _ _ _ hfit]; exact ⟨rfl, rfl⟩
    · simp only [SetPause_handler_overflow _ _ _ _ _ _ (Nat.lt_of_not_le hfit)]
      exact ⟨rfl, rfl⟩
  | ShowTooSmall => simp [Call.isPanelCall] at hc
  | HideTooSmall => simp [Call.isPanelCall] at hc
  | HideGameInfoOverlay => simp [Call.isPanelCall] at hc
  | SetAction a => simp [Call.isPanelCall] at hc
  | ShowGameInfoOverlay => simp [Call.isPanelCall] at hc

/-- Running a handler a second time on the panel its first run completed with changes
nothing. -/
theorem Call.handler_rerun (h : Host) (c : Call) (ui : ScenePanel) :
    c.handler h (c.handler h ui).ui = c.handler h ui := by
  cases c with
  | SetGameLoading => rfl
  | SetGameStats a b c =>
    simp only [Call.handler, SetGameStats_handler_eq]; rfl
  | SetGameOver w a b c d =>
    simp only [Call.handler, SetGameOver_handler_eq]; rfl
  | SetLevelStart level objective timeLimit bonusTime =>
    simp only [Call.handler]
    rcases SetLevelStart_handler_cases h timeLimit bonusTime with
      h1 | ⟨h1, h2⟩ | ⟨h1, h2, h3⟩ | ⟨h1, h2, h3⟩
    · simp only [SetLevelStart_handler_overflow _ _ _ _ _ _ h1]; rfl
    · simp only [SetLevelStart_handler_noBonus _ _ _ _ _ _ h1 h2]; rfl
    · simp only [SetLevelStart_handler_bonus _ _ _ _ _ _ h1 h2 h3]; rfl
    · simp only [SetLevelStart_handler_bonusOverflow _ _ _ _ _ _ h1 h2 h3]; rfl
  | SetPause level hitCount shotCount timeRemaining =>
    simp only [Call.handler]
    by_cases hfit : (fmt_6_1f_sec h timeRemaining).length + 1 ≤ bufferLength
    · simp only [SetPause_handler_fits _ _ _ _ _ _ hfit]; rfl
    · simp only [SetPause_handler_overflow _ _ _ _ _ _ (Nat.lt_of_not_le hfit)]; rfl
  | ShowTooSmall =>
    simp only [Call.handler, ShowTooSmall_handler, Outcome.ui, GoToState_GoToState]
  | HideTooSmall =>
    simp only [Call.handler, HideTooSmall_handler, Outcome.ui, GoToState_GoToState]
  | HideGameInfoOverlay =>
    simp only [Call.handler, HideGameInfoOverlay_handler, Outcome.ui, GoToState_m_playActive,
      GoToState_GoToState]
  | SetAction a => cases a <;> rfl
  | ShowGameInfoOverlay =>
    simp only [Call.handler, ShowGameInfoOverlay_handler, Outcome.ui, GoToState_m_playActive,
      GoToState_GoToState]

/-! ## The panels and the commands -/

/-- C1: whatever the panel was and whatever the arguments are, the panel left by the handler
of `SetGameLoading`, `SetGameStats`, `SetGameOver`, `SetLevelStart` or `SetPause` (whether
the handler ran to its end or a formatter fault stopped it) has exactly one of Loading,
Stats, LevelStart, PauseData Visible and the other three Collapsed: Loading for
`SetGameLoading`, Stats for `SetGameStats` and `SetGameOver`, LevelStart for `SetLevelStart`,
PauseData for `SetPause`. -/
theorem exactly_one_panel_visible (h : Host) (ui : ScenePanel) :
    (SetGameLoading_handler ui).ui.panels
      = (.Visible, .Collapsed, .Collapsed, .Collapsed)
    ∧ (∀ maxLevel hitCount shotCount : CInt,
        (SetGameStats_handler maxLevel hitCount shotCount ui).ui.panels
          = (.Collapsed, .Visible, .Collapsed, .Collapsed))
    ∧ (∀ (win : Bool) (maxLevel hitCount shotCount highScore : CInt),
        (SetGameOver_handler win maxLevel hitCount shotCount highScore ui).ui.panels
          = (.Collapsed, .Visible, .Collapsed, .Collapsed))
    ∧ (∀ (level : CInt) (objective : String) (timeLimit bonusTime : CFloat),
        (SetLevelStart_handler h level objective timeLimit bonusTime ui).ui.panels
          = (.Collapsed, .Collapsed, .Visible, .Collapsed))
    ∧ (∀ (level hitCount shotCount : CInt) (timeRemaining : CFloat),
        (SetPause_handler h level hitCount shotCount timeRemaining ui).ui.panels
          = (.Collapsed, .Collapsed, .Collapsed, .Visible)) := by
  refine ⟨rfl, ?_, ?_, ?_, ?_⟩
  · intro a b c
    rw [SetGameStats_handler_eq]; rfl
  · intro w a b c d
    rw [SetGameOver_handler_eq]; rfl
  · intro level objective timeLimit bonusTime
    rcases SetLevelStart_handler_cases h timeLimit bonusTime with
      h1 | ⟨h1, h2⟩ | ⟨h1, h2, h3⟩ | ⟨h1, h2, h3⟩
    · rw [SetLevelStart_handler_overflow _ _ _ _ _ _ h1]; rfl
    · rw [SetLevelStart_handler_noBonus _ _ _ _ _ _ h1 h2]; rfl
    · rw [SetLevelStart_handler_bonus _ _ _ _ _ _ h1 h2 h3]; rfl
    · rw [SetLevelStart_handler_bonusOverflow _ _ _ _ _ _ h1 h2 h3]; rfl
  · intro level hitCount shotCount timeRemaining
    by_cases hfit : (fmt_6_1f_sec h timeRemaining).length + 1 ≤ bufferLength
    · rw [SetPause_handler_fits _ _ _ _ _ _ hfit]; rfl
    · rw [SetPause_handler_overflow _ _ _ _ _ _ (Nat.lt_of_not_le hfit)]; rfl

/-- C2: whatever the panel was, the handler of `SetAction(command)` runs to its end and
leaves exactly the element named by the command Visible among PlayAgain, PleaseWait,
TapToContinue, the other two Collapsed; with the command `None` all three are Collapsed. -/
theorem SetAction_shows_the_command (ui : ScenePanel) (action : GameInfoOverlayCommand) :
    (SetAction_handler action ui).isCompleted = true
    ∧ (SetAction_handler action ui).ui.commands
        = match action with
          | .PlayAgain => (.Visible, .Collapsed, .Collapsed)
          | .PleaseWait => (.Collapsed, .Visible, .Collapsed)
          | .TapToContinue => (.Collapsed, .Collapsed, .Visible)
          | .None => (.Collapsed, .Collapsed, .Collapsed) := by
  cases action <;> exact ⟨rfl, rfl⟩

/-- C4: for every `win`, `maxLevel`, `hitCount`, `shotCount`, `highScore` and every panel,
the handler of `SetGameOver` runs to its end; the title is "You Won!" when `win` is true and
"Game Over" when it is false, the Stats panel, HighScoreTitle and HighScoreData are Visible,
and the HighScore text is the decimal text of `highScore` (reading it back gives
`highScore`).  For win = true, maxLevel = 5, hitCount = 12, shotCount = 20, highScore = 99
the title is "You Won!" and the HighScore text is "99". -/
theorem SetGameOver_summary (ui : ScenePanel) :
    (∀ (win : Bool) (maxLevel hitCount shotCount highScore : CInt),
      (SetGameOver_handler win maxLevel hitCount shotCount highScore ui).isCompleted = true
      ∧ (SetGameOver_handler win maxLevel hitCount shotCount highScore ui).ui.GameInfoOverlayTitle
          = (if win then "You Won!" else "Game Over")
      ∧ (SetGameOver_handler win maxLevel hitCount shotCount highScore ui).ui.Stats = .Visible
      ∧ (SetGameOver_handler win maxLevel hitCount shotCount highScore ui).ui.HighScoreTitle
          = .Visible
      ∧ (SetGameOver_handler win maxLevel hitCount shotCount highScore ui).ui.HighScoreData
          = .Visible
      ∧ (SetGameOver_handler win maxLevel hitCount shotCount highScore ui).ui.HighScore
          = String.mk (fmt_d highScore)
      ∧ readInt
          (SetGameOver_handler win maxLevel hitCount shotCount highScore ui).ui.HighScore.data
          = highScore.val)
    ∧ (SetGameOver_handler true (CInt.small 5 (by decide)) (CInt.small 12 (by decide))
        (CInt.small 20 (by decide)) (CInt.small 99 (by decide)) ui).ui.GameInfoOverlayTitle
        = "You Won!"
    ∧ (SetGameOver_handler true (CInt.small 5 (by decide)) (CInt.small 12 (by decide))
        (CInt.small 20 (by decide)) (CInt.small 99 (by decide)) ui).ui.HighScore = "99" := by
  refine ⟨?_, ?_, ?_⟩
  · intro win maxLevel hitCount shotCount highScore
    rw [SetGameOver_handler_eq]
    exact ⟨rfl, rfl, rfl, rfl, rfl, rfl, readInt_fmt_d highScore⟩
  · rw [SetGameOver_handler_eq]; rfl
  · rw [SetGameOver_handler_eq]
    show String.mk (fmt_d (CInt.small 99 (by decide))) = "99"
    decide

/-- C10: for every 32-bit `int` the text of `%d` has at most 11 characters (11 for
-2147483648) and the text of `Level %d` at most 17, so with its terminator each fits the
20-character buffer: the formatter succeeds, the length it returns is the length of the
text, and the string built from the buffer and that length is the text itself. -/
theorem int_text_fits_buffer (n : CInt) :
    (fmt_d n).length ≤ 11
    ∧ (fmt_Level_d n).length ≤ 17
    ∧ (∃ wsbuffer length, swprintf_s bufferLength (fmt_d n) = some (wsbuffer, length)
        ∧ length = (fmt_d n).length
        ∧ PlatformString wsbuffer length = String.mk (fmt_d n)
        ∧ (PlatformString wsbuffer length).length = length)
    ∧ (∃ wsbuffer length, swprintf_s bufferLength (fmt_Level_d n) = some (wsbuffer, length)
        ∧ length = (fmt_Level_d n).length
        ∧ PlatformString wsbuffer length = String.mk (fmt_Level_d n)
        ∧ (PlatformString wsbuffer length).length = length)
    ∧ (fmt_d ⟨-2147483648, by decide, by decide⟩).length = 11 := by
  refine ⟨fmt_d_length_le n, ?_, ?_, ?_, by decide⟩
  · have := fmt_d_length_le n
    rw [fmt_Level_d_length]; omega
  · refine ⟨_, _, swprintf_s_fmt_d n, rfl, PlatformString_written _, ?_⟩
    rw [PlatformString_written]; rfl
  · refine ⟨_, _, swprintf_s_fmt_Level_d n, rfl, PlatformString_written _, ?_⟩
    rw [PlatformString_written]; rfl

/-- C7: for every call of the interface (`SetGameLoading`, `SetGameStats`, `SetGameOver`,
`SetLevelStart`, `SetPause`, `SetAction`, `ShowGameInfoOverlay`, `HideGameInfoOverlay`, and
`ShowTooSmall`, `HideTooSmall` as well), every argument tuple and every panel, running the
handler twice in a row ends exactly as running it once, and running it again on the panel
it left changes nothing. -/
theorem handler_idempotent (h : Host) (c : Call) (ui : ScenePanel) :
    runQueue [c.handler h, c.handler h] ui = runQueue [c.handler h] ui
    ∧ c.handler h (c.handler h ui).ui = c.handler h ui := by
  refine ⟨?_, Call.handler_rerun h c ui⟩
  have hre := Call.handler_rerun h c ui
  simp only [runQueue]
  cases hc : c.handler h ui with
  | completed u =>
    rw [hc] at hre
    simp only [Outcome.ui] at hre
    simp [hre]
  | aborted u => rfl

/-! ## The bonus-time field -/

/-- C3, as stated, fails.  With a NaN bonus time the bonus-time field is Collapsed although
`bonusTime <= 0` is false; and with a time limit whose text overflows the buffer the handler
stops before it reaches the bonus-time field, which stays as it was (here Collapsed)
although the bonus time is 1.0. -/
theorem bonus_time_claim_counterexample :
    (SetLevelStart_handler sampleHost (CInt.small 1 (by decide)) "Hit the targets"
        CFloat.thirty CFloat.quietNaN samplePanel).isCompleted = true
    ∧ (SetLevelStart_handler sampleHost (CInt.small 1 (by decide)) "Hit the targets"
        CFloat.thirty CFloat.quietNaN samplePanel).ui.BonusTimeTitle = .Collapsed
    ∧ (SetLevelStart_handler sampleHost (CInt.small 1 (by decide)) "Hit the targets"
        CFloat.thirty CFloat.quietNaN samplePanel).ui.BonusTimeData = .Collapsed
    ∧ CFloat.quietNaN.leZero = false
    ∧ (SetLevelStart_handler sampleHost (CInt.small 1 (by decide)) "Hit the targets"
        CFloat.twoPow44 CFloat.one samplePanel).ui.BonusTimeTitle = .Collapsed
    ∧ (SetLevelStart_handler sampleHost (CInt.small 1 (by decide)) "Hit the targets"
        CFloat.twoPow44 CFloat.one samplePanel).ui.BonusTimeData = .Collapsed
    ∧ CFloat.one.leZero = false := by
  decide

/-- C3, amended: for every level, objective and bonus time, and every time limit whose text
fits the buffer, the handler of `SetLevelStart` leaves BonusTimeTitle and BonusTimeData
Visible when `bonusTime > 0` and Collapsed otherwise; so for every bonus time that is not a
NaN they are Collapsed if and only if `bonusTime <= 0`, and for a NaN they are Collapsed. -/
theorem bonus_time_visibility (h : Host) (level : CInt) (objective : String)
    (timeLimit bonusTime : CFloat) (ui : ScenePanel)
    (hfit : (fmt_6_1f_sec h timeLimit).length + 1 ≤ bufferLength) :
    (SetLevelStart_handler h level objective timeLimit bonusTime ui).ui.BonusTimeTitle
        = (if bonusTime.gtZero then .Visible else .Collapsed)
    ∧ (SetLevelStart_handler h level objective timeLimit bonusTime ui).ui.BonusTimeData
        = (if bonusTime.gtZero then .Visible else .Collapsed)
    ∧ (bonusTime.isNaN = false →
        (((SetLevelStart_handler h level objective timeLimit bonusTime ui).ui.BonusTimeTitle
            = .Collapsed
          ∧ (SetLevelStart_handler h level objective timeLimit bonusTime ui).ui.BonusTimeData
            = .Collapsed)
          ↔ bonusTime.leZero = true))
    ∧ (bonusTime.isNaN = true →
        (SetLevelStart_handler h level objective timeLimit bonusTime ui).ui.BonusTimeTitle
            = .Collapsed
        ∧ (SetLevelStart_handler h level objective timeLimit bonusTime ui).ui.BonusTimeData
            = .Collapsed) := by
  have key :
      (SetLevelStart_handler h level objective timeLimit bonusTime ui).ui.BonusTimeTitle
          = (if bonusTime.gtZero then .Visible else .Collapsed)
      ∧ (SetLevelStart_handler h level objective timeLimit bonusTime ui).ui.BonusTimeData
          = (if bonusTime.gtZero then .Visible else .Collapsed) := by
    cases hb : bonusTime.gtZero
    · rw [SetLevelStart_handler_noBonus _ _ _ _ _ _ hfit hb]; exact ⟨rfl, rfl⟩
    · by_cases hB : (fmt_6_1f_sec h bonusTime).length + 1 ≤ bufferLength
      · rw [SetLevelStart_handler_bonus _ _ _ _ _ _ hfit hb hB]; exact ⟨rfl, rfl⟩
      · rw [SetLevelStart_handler_bonusOverflow _ _ _ _ _ _ hfit hb (Nat.lt_of_not_le hB)]
        exact ⟨rfl, rfl⟩
  refine ⟨key.1, key.2, ?_, ?_⟩
  · intro hnan
    rw [key.1, key.2]
    unfold CFloat.gtZero CFloat.leZero
    rw [hnan]
    cases bonusTime.sign <;> cases bonusTime.isZero <;> simp
  · intro hnan
    rw [key.1, key.2]
    unfold CFloat.gtZero
    rw [hnan]
    exact ⟨rfl, rfl⟩

/-- C3, amended, at level 1 with a time limit of 30 seconds and a bonus time of 1 second:
the time limit fits and the bonus-time field is Visible. -/
theorem bonus_time_visibility_witness :
    (fmt_6_1f_sec sampleHost CFloat.thirty).length + 1 ≤ bufferLength
    ∧ (SetLevelStart_handler sampleHost (CInt.small 1 (by decide)) "Hit the targets"
        CFloat.thirty CFloat.one samplePanel).ui.BonusTimeTitle = .Visible
    ∧ (SetLevelStart_handler sampleHost (CInt.small 1 (by decide)) "Hit the targets"
        CFloat.thirty CFloat.one samplePanel).ui.BonusTimeData = .Visible :=
  ⟨by decide,
    (bonus_time_visibility sampleHost (CInt.small 1 (by decide)) "Hit the targets"
      CFloat.thirty CFloat.one samplePanel (by decide)).1,
    (bonus_time_visibility sampleHost (CInt.small 1 (by decide)) "Hit the targets"
      CFloat.thirty CFloat.one samplePanel (by decide)).2.1⟩

/-! ## Completion -/

/-- C5, as stated, fails: with 2^44 seconds remaining, the text `17592186044416.0 sec` has 20
characters and does not fit the buffer with its terminator, so the formatter faults and the
handler of `SetPause` does not run to its end; the same happens in the handler of
`SetLevelStart` with that time limit. -/
theorem totality_claim_counterexample :
    (fmt_6_1f_sec sampleHost CFloat.twoPow44).length = 20
    ∧ swprintf_s bufferLength (fmt_6_1f_sec sampleHost CFloat.twoPow44) = none
    ∧ (SetPause_handler sampleHost (CInt.small 1 (by decide)) (CInt.small 0 (by decide))
        (CInt.small 0 (by decide)) CFloat.twoPow44 samplePanel).isCompleted = false
    ∧ (SetLevelStart_handler sampleHost (CInt.small 1 (by decide)) "Hit the targets"
        CFloat.twoPow44 CFloat.one samplePanel).isCompleted = false := by
  decide

/-- C5, amended: the handlers of `SetGameLoading`, `SetGameStats`, `SetGameOver` and
`SetAction` run to their end for every panel and all arguments; the handler of
`SetLevelStart` runs to its end exactly when the text of the time limit, and that of the
bonus time when the bonus time is above zero, fits the 20-character buffer with its
terminator; the handler of `SetPause` exactly when the text of the remaining time does; and
the text of every finite time value below 2^36 in magnitude fits. -/
theorem handlers_completion (h : Host) (ui : ScenePanel) :
    (SetGameLoading_handler ui).isCompleted = true
    ∧ (∀ maxLevel hitCount shotCount : CInt,
        (SetGameStats_handler maxLevel hitCount shotCount ui).isCompleted = true)
    ∧ (∀ (win : Bool) (maxLevel hitCount shotCount highScore : CInt),
        (SetGameOver_handler win maxLevel hitCount shotCount highScore ui).isCompleted = true)
    ∧ (∀ action : GameInfoOverlayCommand, (SetAction_handler action ui).isCompleted = true)
    ∧ (∀ (level : CInt) (objective : String) (timeLimit bonusTime : CFloat),
        (SetLevelStart_handler h level objective timeLimit bonusTime ui).isCompleted = true
          ↔ ((fmt_6_1f_sec h timeLimit).length + 1 ≤ bufferLength
              ∧ (bonusTime.gtZero = true →
                  (fmt_6_1f_sec h bonusTime).length + 1 ≤ bufferLength)))
    ∧ (∀ (level hitCount shotCount : CInt) (timeRemaining : CFloat),
        (SetPause_handler h level hitCount shotCount timeRemaining ui).isCompleted = true
          ↔ (fmt_6_1f_sec h timeRemaining).length + 1 ≤ bufferLength)
    ∧ (∀ x : CFloat, x.expo ≤ 162 → (fmt_6_1f_sec h x).length + 1 ≤ bufferLength) := by
  refine ⟨rfl, ?_, ?_, ?_, ?_, ?_, ?_⟩
  · intro a b c
    rw [SetGameStats_handler_eq]; rfl
  · intro w a b c d
    rw [SetGameOver_handler_eq]; rfl
  · intro action
    cases action <;> rfl
  · intro level objective timeLimit bonusTime
    rcases SetLevelStart_handler_cases h timeLimit bonusTime with
      h1 | ⟨h1, h2⟩ | ⟨h1, h2, h3⟩ | ⟨h1, h2, h3⟩
    · rw [SetLevelStart_handler_overflow _ _ _ _ _ _ h1]
      simp only [Outcome.isCompleted]
      constructor
      · intro hf; cases hf
      · intro hf; omega
    · rw [SetLevelStart_handler_noBonus _ _ _ _ _ _ h1 h2]
      simp [Outcome.isCompleted, h1, h2]
    · rw [SetLevelStart_handler_bonus _ _ _ _ _ _ h1 h2 h3]
      simp [Outcome.isCompleted, h1, h3]
    · rw [SetLevelStart_handler_bonusOverflow _ _ _ _ _ _ h1 h2 h3]
      simp only [Outcome.isCompleted]
      constructor
      · intro hf; cases hf
      · intro hf
        have := hf.2 h2
        omega
  · intro level hitCount shotCount timeRemaining
    by_cases hfit : (fmt_6_1f_sec h timeRemaining).length + 1 ≤ bufferLength
    · rw [SetPause_handler_fits _ _ _ _ _ _ hfit]
      simp [Outcome.isCompleted, hfit]
    · rw [SetPause_handler_overflow _ _ _ _ _ _ (Nat.lt_of_not_le hfit)]
      simp [Outcome.isCompleted, hfit]
  · intro x hx
    exact fmt_6_1f_sec_fits h x hx

/-- C5, amended, at a pause with 30 seconds remaining: 30.0f lies below 2^36, its text fits,
and the handler of `SetPause` runs to its end. -/
theorem handlers_completion_witness :
    CFloat.thirty.expo ≤ 162
    ∧ (fmt_6_1f_sec sampleHost CFloat.thirty).length + 1 ≤ bufferLength
    ∧ (SetPause_handler sampleHost (CInt.small 1 (by decide)) (CInt.small 0 (by decide))
        (CInt.small 0 (by decide)) CFloat.thirty samplePanel).isCompleted = true :=
  ⟨by decide,
    (handlers_completion sampleHost samplePanel).2.2.2.2.2.2 CFloat.thirty (by decide),
    ((handlers_completion sampleHost samplePanel).2.2.2.2.2.1 (CInt.small 1 (by decide))
      (CInt.small 0 (by decide)) (CInt.small 0 (by decide)) CFloat.thirty).mpr
      ((handlers_completion sampleHost samplePanel).2.2.2.2.2.2 CFloat.thirty (by decide))⟩

/-! ## The most recent update -/

/-- C6, as stated, fails: `SetLevelStart` with a time limit of 2^44 seconds followed by
`SetGameLoading`.  The first handler faults, the run ends there, and the title and the panels
are those of the level start, not those the last task alone produces. -/
theorem most_recent_claim_counterexample :
    (runQueue
        ([Call.SetLevelStart (CInt.small 1 (by decide)) "Hit the targets" CFloat.twoPow44
            CFloat.one, Call.SetGameLoading].map (Call.handler sampleHost))
        samplePanel).ui.GameInfoOverlayTitle = "Level 1"
    ∧ (runQueue
        ([Call.SetLevelStart (CInt.small 1 (by decide)) "Hit the targets" CFloat.twoPow44
            CFloat.one, Call.SetGameLoading].map (Call.handler sampleHost))
        samplePanel).ui.panels = (.Collapsed, .Collapsed, .Visible, .Collapsed)
    ∧ (runQueue [Call.SetGameLoading.handler sampleHost] samplePanel).ui.GameInfoOverlayTitle
        = "Loading Resources"
    ∧ (runQueue [Call.SetGameLoading.handler sampleHost] samplePanel).ui.panels
        = (.Visible, .Collapsed, .Collapsed, .Collapsed) := by
  decide

/-- C6, amended: for every panel and every sequence of calls whose last call is one of
`SetGameLoading`, `SetGameStats`, `SetGameOver`, `SetLevelStart`, `SetPause`, if the handlers
before the last all run to their end, then after the handlers have run in first-in-first-out
order the title and the visibility of Loading, Stats, LevelStart, PauseData are those that
running the last handler alone produces. -/
theorem last_panel_call_decides (h : Host) (cs : List Call) (c : Call) (ui : ScenePanel)
    (hc : c.isPanelCall = true)
    (hrun : (runQueue (cs.map (Call.handler h)) ui).isCompleted = true) :
    (runQueue ((cs ++ [c]).map (Call.handler h)) ui).ui.GameInfoOverlayTitle
        = (runQueue [c.handler h] ui).ui.GameInfoOverlayTitle
    ∧ (runQueue ((cs ++ [c]).map (Call.handler h)) ui).ui.panels
        = (runQueue [c.handler h] ui).ui.panels := by
  rw [List.map_append, runQueue_append]
  cases hq : runQueue (cs.map (Call.handler h)) ui with
  | completed u =>
    simp only [List.map_cons, List.map_nil, runQueue_singleton_ui]
    exact Call.panel_result_indep h c hc u ui
  | aborted u =>
    rw [hq] at hrun
    cases hrun

/-- C6, amended, at the sequence `SetGameLoading`, `SetPause` (30 seconds remaining),
`SetGameStats`: the title is "Game Statistics" and the Stats panel alone is Visible. -/
theorem last_panel_call_decides_witness :
    (Call.SetGameStats (CInt.small 5 (by decide)) (CInt.small 12 (by decide))
        (CInt.small 20 (by decide))).isPanelCall = true
    ∧ (runQueue
        ([Call.SetGameLoading,
          Call.SetPause (CInt.small 1 (by decide)) (CInt.small 0 (by decide))
            (CInt.small 0 (by decide)) CFloat.thirty].map (Call.handler sampleHost))
        samplePanel).isCompleted = true
    ∧ (runQueue
        (([Call.SetGameLoading,
          Call.SetPause (CInt.small 1 (by decide)) (CInt.small 0 (by decide))
            (CInt.small 0 (by decide)) CFloat.thirty]
          ++ [Call.SetGameStats (CInt.small 5 (by decide)) (CInt.small 12 (by decide))
            (CInt.small 20 (by decide))]).map (Call.handler sampleHost))
        samplePanel).ui.panels
        = (runQueue
            [(Call.SetGameStats (CInt.small 5 (by decide)) (CInt.small 12 (by decide))
              (CInt.small 20 (by decide))).handler sampleHost] samplePanel).ui.panels :=
  ⟨by decide, by decide,
    (last_panel_call_decides sampleHost
      [Call.SetGameLoading,
        Call.SetPause (CInt.small 1 (by decide)) (CInt.small 0 (by decide))
          (CInt.small 0 (by decide)) CFloat.thirty]
      (Call.SetGameStats (CInt.small 5 (by decide)) (CInt.small 12 (by decide))
        (CInt.small 20 (by decide)))
      samplePanel (by decide) (by decide)).2⟩

/-! ## The numeric fields -/

theorem wellLocked_program (acts : List Activity) : wellLocked false (program acts) = true := by
  induction acts with
  | nil => rfl
  | cons a as ih =>
    cases a <;>
      simpa [program, Activity.body, OnCompositionScaleChanged, OnSwapChainPanelSizeChanged,
        driverRebuild, wellLocked] using ih

theorem insideRegion_of_wellLocked (prog : List Instr) :
    ∀ b : Bool, wellLocked b prog = true → insideRegion prog = b := by
  induction prog with
  | nil => intro b hb; cases b <;> simp_all [wellLocked, insideRegion]
  | cons instr rest ih =>
    intro b hb
    cases b <;> cases instr <;> simp_all [wellLocked, insideRegion]

theorem Consistent_start (work : Nat → List Activity) : Consistent (start work) := by
  intro j
  simpa [start] using wellLocked_program (work j)

theorem Consistent_stepThread (s : Threads) (i : Nat) (hs : Consistent s) :
    Consistent (stepThread s i) := by
  have hi := hs i
  unfold stepThread
  cases hp : s.remaining i with
  | nil => exact hs
  | cons instr rest =>
    rw [hp] at hi
    by_cases hown : s.owner = some i
    · -- thread `i` holds the critical section
      simp only [hown, decide_True] at hi
      cases instr with
      | Lock => simp [wellLocked] at hi
      | Unlock =>
        simp only [wellLocked] at hi
        intro j
        by_cases hj : j = i
        · subst hj; simpa using hi
        · have := hs j
          simp only [hown] at this
          have hne : ¬ (some i = some j) := by simpa using fun h => hj h.symm
          simpa [Function.update_noteq hj, hne] using this
      | SetCompositionScale =>
        simp only [wellLocked] at hi
        intro j
        by_cases hj : j = i
        · subst hj; simpa [hown] using hi
        · simpa [Function.update_noteq hj] using hs j
      | SetLogicalSize =>
        simp only [wellLocked] at hi
        intro j
        by_cases hj : j = i
        · subst hj; simpa [hown] using hi
        · simpa [Function.update_noteq hj] using hs j
      | CreateWindowSizeDependentResources =>
        simp only [wellLocked] at hi
        intro j
        by_cases hj : j = i
        · subst hj; simpa [hown] using hi
        · simpa [Function.update_noteq hj] using hs j
    · -- thread `i` does not hold it: it can only be at `Lock`
      simp only [hown, decide_False] at hi
      cases instr with
      | Lock =>
        simp only [wellLocked] at hi
        by_cases hfree : s.owner = none
        · simp only [hfree, if_true]
          intro j
          by_cases hj : j = i
          · subst hj; simpa using hi
          · have := hs j
            simp only [hfree] at this
            have hne : ¬ (some i = some j) := by simpa using fun h => hj h.symm
            simpa [Function.update_noteq hj, hne] using this
        · simp only [hfree, if_false]; exact hs
      | Unlock => simp [wellLocked] at hi
      | SetCompositionScale => simp [wellLocked] at hi
      | SetLogicalSize => simp [wellLocked] at hi
      | CreateWindowSizeDependentResources => simp [wellLocked] at hi

theorem Consistent_runSchedule (schedule : List Nat) :
    ∀ s : Threads, Consistent s → Consistent (runSchedule s schedule) := by
  induction schedule with
  | nil => intro s hs; exact hs
  | cons i schedule ih =>
    intro s hs
    exact ih _ (Consistent_stepThread s i hs)

/-- The two sample threads run to the end of their work under a schedule that gives each
its turn, and the critical section is free again. -/
theorem sampleWork_runs_to_end :
    (runSchedule (start sampleWork) [0, 1, 0, 0, 1, 0, 1, 1, 1, 1, 1, 1, 1]).remaining 0 = []
    ∧ (runSchedule (start sampleWork) [0, 1, 0, 0, 1, 0, 1, 1, 1, 1, 1, 1, 1]).remaining 1 = []
    ∧ (runSchedule (start sampleWork) [0, 1, 0, 0, 1, 0, 1, 1, 1, 1, 1, 1, 1]).owner = none := by
  decide

/-- C9: let any number of threads each run any sequence of `OnSwapChainPanelSizeChanged`,
`OnCompositionScaleChanged` and the driver's resource rebuild, interleaved in any order.
In every state reached, at most one thread is inside the region between taking the critical
section and releasing it; a thread inside the region holds the critical section; and a
thread about to change the logical size or the composition scale, to call
`CreateWindowSizeDependentResources`, or to release, holds it too. -/
theorem size_and_scale_handlers_exclusive (work : Nat → List Activity) (schedule : List Nat) :
    (∀ i j : Nat,
        insideRegion ((runSchedule (start work) schedule).remaining i) = true →
        insideRegion ((runSchedule (start work) schedule).remaining j) = true → i = j)
    ∧ (∀ i : Nat,
        insideRegion ((runSchedule (start work) schedule).remaining i) = true ↔
          (runSchedule (start work) schedule).owner = some i)
    ∧ (∀ (i : Nat) (instr : Instr) (rest : List Instr),
        (runSchedule (start work) schedule).remaining i = instr :: rest →
        instr ≠ .Lock → (runSchedule (start work) schedule).owner = some i) := by
  have hcons := Consistent_runSchedule schedule (start work) (Consistent_start work)
  have hin : ∀ i : Nat,
      insideRegion ((runSchedule (start work) schedule).remaining i) = true ↔
        (runSchedule (start work) schedule).owner = some i := by
    intro i
    have := insideRegion_of_wellLocked _ _ (hcons i)
    rw [this]
    simp
  refine ⟨?_, hin, ?_⟩
  · intro i j hi hj
    have h1 := (hin i).mp hi
    have h2 := (hin j).mp hj
    rw [h1] at h2
    exact Option.some.inj h2
  · intro i instr rest hrem hne
    by_cases hown : (runSchedule (start work) schedule).owner = some i
    · exact hown
    · have := hcons i
      rw [hrem] at this
      simp only [hown, decide_False] at this
      cases instr with
      | Lock => exact absurd rfl hne
      | Unlock => simp [wellLocked] at this
      | SetCompositionScale => simp [wellLocked] at this
      | SetLogicalSize => simp [wellLocked] at this
      | CreateWindowSizeDependentResources => simp [wellLocked] at this

/-- C9 on two threads, after thread 0 took the critical section, thread 1 tried to, and
thread 0 set the logical size: thread 0 is about to rebuild and holds the critical section,
thread 1 still waits at its `Lock`. -/
theorem size_and_scale_handlers_exclusive_witness :
    (runSchedule (start sampleWork) [0, 1, 0]).remaining 0
        = [.CreateWindowSizeDependentResources, .Unlock]
    ∧ Instr.CreateWindowSizeDependentResources ≠ Instr.Lock
    ∧ (runSchedule (start sampleWork) [0, 1, 0]).owner = some 0
    ∧ (runSchedule (start sampleWork) [0, 1, 0]).remaining 1
        = OnCompositionScaleChanged ++ driverRebuild :=
  ⟨by decide, by decide,
    (size_and_scale_handlers_exclusive sampleWork [0, 1, 0]).2.2 0
      .CreateWindowSizeDependentResources [.Unlock] (by decide) (by decide),
    by decide⟩

end DirectXSceneStore
